import Mathlib

/-!
Verification of the wallet/withdrawal settlement subsystem of the contests
backend (src/routes/wallet.ts, src/services/walletService.ts).

Monetary values are embedded as exact rationals. The source stores money in
MySQL decimal(15,2) columns and rounds at every mutation boundary with
Math.round(((x) + Number.EPSILON) * 100) / 100; jsRound below is JavaScript
Math.round on exact inputs (half away from minus infinity) and EPSILON is
Number.EPSILON = 2 ^ (-52).

String-valued description columns and timestamps are elided; entity fields
keep the snake_case column names of the source models.
-/

namespace ContestsWallet

/-- JavaScript Math.round on an exact rational: floor (x + 1/2). -/
def jsRound (x : ℚ) : ℤ := (x + 1 / 2).floor

/-- Rounding to 2 decimal places as done in the source: Math.round (x * 100) / 100. -/
def round2 (x : ℚ) : ℚ := (jsRound (x * 100) : ℚ) / 100

/-- Number.EPSILON, added by the source before rounding balance mutations. -/
def EPSILON : ℚ := 1 / 2 ^ 52

/-- Fee percentage component (wallet.ts 305): Math.round(amount * 0.025 * 100) / 100. -/
def percentFee (amount : ℚ) : ℚ := round2 (amount * (25 / 1000))

/-- Withdrawal fee (wallet.ts 305-307): 2.5 percent rounded to cents plus 100 fixed. -/
def fee (amount : ℚ) : ℚ := percentFee amount + 100

/-- Net paid out (wallet.ts 308): Math.max(0, Math.round((amount - fee) * 100) / 100). -/
def net (amount : ℚ) : ℚ := max 0 (round2 (amount - fee amount))

/-- A rational that is a whole number of cents (minor currency units), as every
value persisted in the decimal(15,2) columns is. -/
def isCents (x : ℚ) : Prop := ∃ k : ℤ, x = (k : ℚ) / 100

/-! ### Data model (src/models, migrations 1700000000000 and 1700000008000/9000) -/

inductive EntryType where
  | credit
  | debit

inductive LedgerContext where
  | deposit
  | withdrawal_hold
  | withdrawal_refund
  | withdrawal_settle
  | withdrawal_fee

/-- Row of wallet_ledger. The uuid/reference string columns and timestamps are
elided; transaction ids are modelled as Nat. -/
structure LedgerEntry where
  entry_type : EntryType
  amount : ℚ
  balance_after : ℚ
  transaction_id : Nat
  context : LedgerContext

inductive TxStatus where
  | pending
  | completed
  | failed

inductive TxKind where
  | deposit
  | withdrawal
  | withdrawal_fee
  | transfer

/-- Row of transactions (models/Transaction.ts); description/reference/metadata elided. -/
structure Txn where
  id : Nat
  amount : ℚ
  transaction_type : TxKind
  status : TxStatus

inductive WdStatus where
  | processing
  | completed
  | failed

/-- Row of withdrawals (migration 1700000008000); bank detail and timestamp columns elided. -/
structure WithdrawalRow where
  id : Nat
  amount : ℚ
  fee : ℚ
  net_amount : ℚ
  status : WdStatus
  transaction_id : Nat
  admin_notes : Option String

/-- The wallets row of one user (models/Wallet.ts): balance decimal(15,2),
pending_balance decimal(15,2), total_deposited. -/
structure Wallet where
  balance : ℚ
  pending_balance : ℚ
  total_deposited : ℚ

/-- Persisted state touching a single user's wallet: the wallet row plus that
wallet's transactions, ledger entries and withdrawals, in creation order.
nextId feeds generated row ids. -/
structure St where
  wallet : Wallet
  txs : List Txn
  ledger : List LedgerEntry
  wds : List WithdrawalRow
  nextId : Nat

/-- A fresh wallet as created by walletService.createWallet (balance 0). -/
def initSt : St :=
  { wallet := { balance := 0, pending_balance := 0, total_deposited := 0 }
    txs := [], ledger := [], wds := [], nextId := 0 }

/-- Signed contribution of a ledger entry when replaying: credit adds, debit subtracts. -/
def entrySigned (e : LedgerEntry) : ℚ :=
  match e.entry_type with
  | .credit => e.amount
  | .debit => -e.amount

/-- Folding all ledger entries of the wallet in creation order. -/
def ledgerFold (l : List LedgerEntry) : ℚ := (l.map entrySigned).sum

/-- Amount of an entry when it was written at settle time (context
withdrawal_settle or withdrawal_fee), else 0. -/
def settleFeeAmount (e : LedgerEntry) : ℚ :=
  match e.context with
  | .withdrawal_settle => e.amount
  | .withdrawal_fee => e.amount
  | _ => 0

/-- Total amount of withdrawal_settle and withdrawal_fee debit entries. -/
def settleFeeSum (l : List LedgerEntry) : ℚ := (l.map settleFeeAmount).sum

/-- Status update of the transaction row with the given id (repo.save of a
loaded row). -/
def markTx (ts : List Txn) (i : Nat) (st : TxStatus) : List Txn :=
  ts.map fun t => if t.id = i then { t with status := st } else t

/-- Withdrawal marked failed with admin_notes set (wallet.ts 378-380). -/
def markWdFailed (ws : List WithdrawalRow) (i : Nat) (notes : String) : List WithdrawalRow :=
  ws.map fun w => if w.id = i then { w with status := WdStatus.failed, admin_notes := some notes } else w

/-- Withdrawal marked completed (wallet.ts 420-423). -/
def markWdCompleted (ws : List WithdrawalRow) (i : Nat) : List WithdrawalRow :=
  ws.map fun w => if w.id = i then { w with status := WdStatus.completed } else w

/-! ### Withdrawal route, POST /withdrawals (wallet.ts 265-468)

The handler is embedded as a pure transition. External effects (database write
failures inside each query-runner transaction, the gateway verdict) are inputs
via WdScenario: a write failure inside a startTransaction/commitTransaction
block rolls the whole block back, and a write failure outside any block leaves
the earlier committed writes in place and surfaces as a 500. -/

structure WdScenario where
  stage1Fails : Bool
  wdSaveFails : Bool
  gatewayOk : Bool
  gatewayMsg : Option String
  refundTxFails : Bool
  settleTxFails : Bool

inductive WdResult where
  | insufficientBalance
  | serverError
  | gatewayFailed
  | created

/-- Stage 1 hold (wallet.ts 316-341), one database transaction: balance moved
into pending_balance with the source's rounding, pending hold Transaction and
debit withdrawal_hold ledger entry recording the new balance. -/
def applyHold (s : St) (amount : ℚ) : St :=
  let b := round2 (s.wallet.balance - amount + EPSILON)
  let p := round2 (s.wallet.pending_balance + amount + EPSILON)
  { wallet := { s.wallet with balance := b, pending_balance := p }
    txs := s.txs ++ [{ id := s.nextId, amount := amount, transaction_type := .withdrawal, status := .pending }]
    ledger := s.ledger ++ [{ entry_type := .debit, amount := amount, balance_after := b, transaction_id := s.nextId, context := .withdrawal_hold }]
    wds := s.wds
    nextId := s.nextId + 1 }

/-- Creation of the Withdrawal row (wallet.ts 350-362). In the source this save
runs after qr1.commitTransaction, outside any database transaction. -/
def createWdRow (s : St) (amount : ℚ) (holdTxId : Nat) : St :=
  { s with
    wds := s.wds ++ [{ id := s.nextId, amount := amount, fee := fee amount, net_amount := net amount, status := .processing, transaction_id := holdTxId, admin_notes := none }]
    nextId := s.nextId + 1 }

/-- Stage 2A compensating refund (wallet.ts 368-402), one database transaction:
full reversal of the hold, Withdrawal failed with the gateway message (or the
fallback text) as admin_notes, hold Transaction failed, credit
withdrawal_refund ledger entry. -/
def applyRefund (s : St) (wdId holdTxId : Nat) (amount : ℚ) (gatewayMsg : Option String) : St :=
  let b := round2 (s.wallet.balance + amount + EPSILON)
  let p := max 0 (round2 (s.wallet.pending_balance - amount + EPSILON))
  { wallet := { s.wallet with balance := b, pending_balance := p }
    txs := markTx s.txs holdTxId .failed
    ledger := s.ledger ++ [{ entry_type := .credit, amount := amount, balance_after := b, transaction_id := holdTxId, context := .withdrawal_refund }]
    wds := markWdFailed s.wds wdId (gatewayMsg.getD "Transfer initiation failed")
    nextId := s.nextId }

/-- Stage 2B settle (wallet.ts 407-461), one database transaction:
pending_balance released, hold Transaction and Withdrawal completed, fee
Transaction created, debit withdrawal_settle (net) and withdrawal_fee (fee)
ledger entries both recording the unchanged balance. -/
def applySettle (s : St) (wdId holdTxId : Nat) (amount : ℚ) : St :=
  let p := max 0 (round2 (s.wallet.pending_balance - amount + EPSILON))
  { wallet := { s.wallet with pending_balance := p }
    txs := markTx s.txs holdTxId .completed ++ [{ id := s.nextId, amount := fee amount, transaction_type := .withdrawal_fee, status := .completed }]
    ledger := s.ledger ++
      [{ entry_type := .debit, amount := net amount, balance_after := s.wallet.balance, transaction_id := holdTxId, context := .withdrawal_settle },
       { entry_type := .debit, amount := fee amount, balance_after := s.wallet.balance, transaction_id := s.nextId, context := .withdrawal_fee }]
    wds := markWdCompleted s.wds wdId
    nextId := s.nextId + 1 }

/-- The whole POST /withdrawals handler (wallet.ts 286-463) after bank account
resolution: balance check, stage-1 hold transaction, Withdrawal row save,
gateway transfer call, then stage 2A or 2B. In the sequential embedding the
re-read balance check inside the stage-1 transaction (line 318) coincides with
the route-level check (line 287). -/
def withdrawRoute (s : St) (amount : ℚ) (sc : WdScenario) : St × WdResult :=
  if s.wallet.balance < amount then (s, .insufficientBalance)
  else if sc.stage1Fails then (s, .serverError)
  else
    let holdTxId := s.nextId
    let s1 := applyHold s amount
    if sc.wdSaveFails then (s1, .serverError)
    else
      let wdId := s1.nextId
      let s2 := createWdRow s1 amount holdTxId
      if sc.gatewayOk then
        if sc.settleTxFails then (s2, .serverError)
        else (applySettle s2 wdId holdTxId amount, .created)
      else
        if sc.refundTxFails then (s2, .serverError)
        else (applyRefund s2 wdId holdTxId amount sc.gatewayMsg, .gatewayFailed)

/-! ### Deposit verification, POST /deposits/verify (wallet.ts 89-190)

The gateway reports amounts in kobo (minor units); the handler converts with
amount = (verify.data.amount || 0) / 100 (line 113). The three database writes
of the credit step (wallet save, transaction save, ledger save) are issued
sequentially, with no query-runner transaction around them; DepositScenario
injects a failure of each save, after which the handler's catch returns a 500
and the earlier saves stay persisted. -/

structure DepositScenario where
  walletSaveFails : Bool
  txSaveFails : Bool
  ledgerSaveFails : Bool

inductive DepositResult where
  | verificationFailed
  | amountMismatch
  | recordedAmountMismatch
  | credited
  | serverError

/-- Kobo reported by the gateway to naira (wallet.ts 113). -/
def koboToNaira (k : Nat) : ℚ := (k : ℚ) / 100

/-- The expectedAmount guard (wallet.ts 114): the comparison only runs when
expectedAmount is truthy, and 0 (like undefined) is falsy in JavaScript. -/
def expectedAmountMismatch (expectedAmount : Option ℚ) (amount : ℚ) : Bool :=
  match expectedAmount with
  | none => false
  | some e => decide (e ≠ 0) && decide (jsRound (e * 100) ≠ jsRound (amount * 100))

/-- Wallet credit shared by both deposit paths (wallet.ts 129-132 and 157-160). -/
def creditWallet (w : Wallet) (amount : ℚ) : Wallet :=
  { w with balance := w.balance + amount, total_deposited := w.total_deposited + amount }

/-- POST /deposits/verify after the gateway verification call. pendingTx is the
transaction found by the (user_id, reference, status=pending) lookup of line
105, if any; verified is the gateway verdict; amountKobo is the gateway-reported
amount. -/
def depositVerifyRoute (s : St) (pendingTx : Option Txn) (verified : Bool)
    (amountKobo : Nat) (expectedAmount : Option ℚ) (sc : DepositScenario) :
    St × DepositResult :=
  if verified then
    let amount := koboToNaira amountKobo
    if expectedAmountMismatch expectedAmount amount then (s, .amountMismatch)
    else
      match pendingTx with
      | some tx =>
        if jsRound (tx.amount * 100) ≠ jsRound (amount * 100) then (s, .recordedAmountMismatch)
        else if sc.walletSaveFails then (s, .serverError)
        else
          let s1 := { s with wallet := creditWallet s.wallet amount }
          if sc.txSaveFails then (s1, .serverError)
          else
            let s2 := { s1 with txs := markTx s1.txs tx.id .completed }
            if sc.ledgerSaveFails then (s2, .serverError)
            else
              ({ s2 with ledger := s2.ledger ++ [{ entry_type := .credit, amount := amount, balance_after := s1.wallet.balance, transaction_id := tx.id, context := .deposit }] }, .credited)
      | none =>
        if sc.walletSaveFails then (s, .serverError)
        else
          let s1 := { s with wallet := creditWallet s.wallet amount }
          if sc.txSaveFails then (s1, .serverError)
          else
            let s2 := { s1 with txs := s1.txs ++ [{ id := s1.nextId, amount := amount, transaction_type := .deposit, status := .completed }], nextId := s1.nextId + 1 }
            if sc.ledgerSaveFails then (s2, .serverError)
            else
              ({ s2 with ledger := s2.ledger ++ [{ entry_type := .credit, amount := amount, balance_after := s1.wallet.balance, transaction_id := s1.nextId, context := .deposit }] }, .credited)
  else (s, .verificationFailed)

/-! ### walletService operations (walletService.ts)

These mutate the wallet and transactions only: none of them writes a
wallet_ledger row. Transfers are modelled from the point of view of one
wallet, as the sender (deduction, walletService.ts 167-173) or the receiver
(credit, walletService.ts 176-177). -/

inductive ServiceErr where
  | insufficientBalance

/-- walletService.withdrawFunds (133-154): guard, plain balance -= amount
(no rounding in the service), pending withdrawal Transaction, no ledger row. -/
def serviceWithdrawFunds (s : St) (amount : ℚ) : Except ServiceErr St :=
  if s.wallet.balance < amount then .error .insufficientBalance
  else .ok
    { s with
      wallet := { s.wallet with balance := s.wallet.balance - amount }
      txs := s.txs ++ [{ id := s.nextId, amount := amount, transaction_type := .withdrawal, status := .pending }]
      nextId := s.nextId + 1 }

/-- walletService.transferFunds, sender side (163-173, 180-187). -/
def serviceTransferOut (s : St) (amount : ℚ) : Except ServiceErr St :=
  if s.wallet.balance < amount then .error .insufficientBalance
  else .ok
    { s with
      wallet := { s.wallet with balance := s.wallet.balance - amount }
      txs := s.txs ++ [{ id := s.nextId, amount := amount, transaction_type := .transfer, status := .completed }]
      nextId := s.nextId + 1 }

/-- walletService.transferFunds, receiver side (176-177, 189-196). -/
def serviceTransferIn (s : St) (amount : ℚ) : St :=
  { s with
    wallet := { s.wallet with balance := s.wallet.balance + amount }
    txs := s.txs ++ [{ id := s.nextId, amount := amount, transaction_type := .transfer, status := .completed }]
    nextId := s.nextId + 1 }

/-! ### Reachability

Reachable closes initSt under every wallet-touching operation, including the
failure-injected routes. Amount-side conditions mirror the callers'
express-validator rules: the withdrawal amount is isFloat gt 0 (wallet.ts 266),
deposit amounts are the gateway's nonnegative kobo counts, and transfer/prize
amounts are isFloat min 0 (contest.ts 243-244). -/

inductive Reachable : St → Prop where
  | init : Reachable initSt
  | deposit (s : St) (pt : Option Txn) (v : Bool) (k : Nat) (ea : Option ℚ) (sc : DepositScenario) :
      Reachable s → Reachable (depositVerifyRoute s pt v k ea sc).1
  | withdraw (s : St) (a : ℚ) (sc : WdScenario) :
      0 < a → Reachable s → Reachable (withdrawRoute s a sc).1
  | svcWithdraw (s s2 : St) (a : ℚ) :
      serviceWithdrawFunds s a = .ok s2 → Reachable s → Reachable s2
  | transferOut (s s2 : St) (a : ℚ) :
      serviceTransferOut s a = .ok s2 → Reachable s → Reachable s2
  | transferIn (s : St) (a : ℚ) :
      0 ≤ a → Reachable s → Reachable (serviceTransferIn s a)

/-- A deposit-verify run in which every database save succeeds. -/
def allSavesOk : DepositScenario :=
  { walletSaveFails := false, txSaveFails := false, ledgerSaveFails := false }

/-- A withdrawal run in which every database transaction and save succeeds and
only the gateway outcome varies. -/
def smoothScenario (ok : Bool) (msg : Option String) : WdScenario :=
  { stage1Fails := false, wdSaveFails := false, gatewayOk := ok, gatewayMsg := msg,
    refundTxFails := false, settleTxFails := false }

/-- States reached through the two wallet routes alone, with all database
writes succeeding and each requested amount a whole number of cents, as the
decimal(15,2) schema persists. -/
inductive RouteReachable : St → Prop where
  | init : RouteReachable initSt
  | deposit (s : St) (pt : Option Txn) (v : Bool) (k : Nat) (ea : Option ℚ) :
      RouteReachable s → RouteReachable (depositVerifyRoute s pt v k ea allSavesOk).1
  | withdraw (s : St) (a : ℚ) (ok : Bool) (msg : Option String) :
      0 < a → isCents a → RouteReachable s →
      RouteReachable (withdrawRoute s a (smoothScenario ok msg)).1

/-- State after a verified fallback deposit of 100000 kobo (1000 naira) into a
fresh wallet, every save succeeding. -/
def depositedSt : St := (depositVerifyRoute initSt none true 100000 none allSavesOk).1

/-- depositedSt after a withdrawal of 400 whose gateway transfer succeeds. -/
def settledSt : St := (withdrawRoute depositedSt 400 (smoothScenario true none)).1

/-- A withdrawal run in which the Withdrawal-row save (wallet.ts 362) throws
after the stage-1 transaction committed. -/
def wdSaveFailScenario : WdScenario :=
  { stage1Fails := false, wdSaveFails := true, gatewayOk := true, gatewayMsg := none,
    refundTxFails := false, settleTxFails := false }

/-- A deposit-verify run in which the transaction save (wallet.ts 138/172)
throws after the wallet save succeeded. -/
def txSaveFailScenario : DepositScenario :=
  { walletSaveFails := false, txSaveFails := true, ledgerSaveFails := false }

/-- A wallet with balance 1000 and no operation history, for concrete checks. -/
def richSt : St :=
  { wallet := { balance := 1000, pending_balance := 0, total_deposited := 1000 }
    txs := [], ledger := [], wds := [], nextId := 0 }

/-! ### Bank account resolution (wallet.ts 291-302)

Option-valued request fields model presence of the body fields; the route
validations make each of them a string when present. -/

structure BankAccount where
  id : Nat
  user_id : Nat
  account_name : String
  account_number : String
  bank_name : String
  bank_code : String
deriving DecidableEq

structure AccountInfo where
  name : String
  number : String
  bankName : String
  bankCode : String
deriving DecidableEq

inductive BankResolveErr where
  | notFound
  | validationFailed
deriving DecidableEq

/-- Bank detail resolution of POST /withdrawals (wallet.ts 291-302): a supplied
bank_account_id is looked up scoped to the requesting user (404 when absent);
otherwise the four inline fields are required, else a 400. -/
def resolveBankAccount (accounts : List BankAccount) (userId : Nat)
    (bank_account_id : Option Nat)
    (bank_name bank_code account_number account_name : Option String) :
    Except BankResolveErr AccountInfo :=
  match bank_account_id with
  | some i =>
    match accounts.find? (fun acc => acc.id == i && acc.user_id == userId) with
    | some acc => .ok { name := acc.account_name, number := acc.account_number, bankName := acc.bank_name, bankCode := acc.bank_code }
    | none => .error .notFound
  | none =>
    match bank_name, bank_code, account_number, account_name with
    | some bn, some bc, some an, some nm => .ok { name := nm, number := an, bankName := bn, bankCode := bc }
    | _, _, _, _ => .error .validationFailed

/-- richSt with a hold of 400 placed and its Withdrawal row created: the state
right before the gateway call, with balance 600, pending 400 and withdrawal 1
in processing. -/
def heldSt : St := createWdRow (applyHold richSt 400) 400 0

/-- heldSt after one execution of the stage-2A refund block. -/
def refundedOnceSt : St := applyRefund heldSt 1 0 400 (some "transfer failed")

/-- refundedOnceSt after a second execution of the same refund block. -/
def refundedTwiceSt : St := applyRefund refundedOnceSt 1 0 400 (some "transfer failed")

/-- One saved bank account of user 7, for the resolution checks. -/
def savedAccounts : List BankAccount :=
  [{ id := 1, user_id := 7, account_name := "Ada Obi", account_number := "0123456789",
     bank_name := "GTB", bank_code := "058" }]

/-- The balance invariant of the spec: both wallet funds fields nonnegative. -/
def NonNeg (s : St) : Prop := 0 ≤ s.wallet.balance ∧ 0 ≤ s.wallet.pending_balance

/-! ### Rounding lemmas -/

theorem eps_nonneg : (0 : ℚ) ≤ EPSILON := by rw [EPSILON]; norm_num

theorem jsRound_eq (x : ℚ) : jsRound x = ⌊x + 1 / 2⌋ := by
  rw [jsRound, Rat.floor_def', Rat.floor_def]

theorem round2_eq (x : ℚ) : round2 x = ((⌊x * 100 + 1 / 2⌋ : ℤ) : ℚ) / 100 := by
  rw [round2, jsRound_eq]

theorem round2_nonneg {x : ℚ} (h : 0 ≤ x) : 0 ≤ round2 x := by
  rw [round2_eq]
  have hf : (0 : ℤ) ≤ ⌊x * 100 + 1 / 2⌋ := Int.floor_nonneg.2 (by linarith)
  have hc : (0 : ℚ) ≤ ((⌊x * 100 + 1 / 2⌋ : ℤ) : ℚ) := by exact_mod_cast hf
  linarith

theorem round2_isCents (x : ℚ) : isCents (round2 x) := ⟨⌊x * 100 + 1 / 2⌋, round2_eq x⟩

theorem isCents_add {x y : ℚ} (hx : isCents x) (hy : isCents y) : isCents (x + y) := by
  obtain ⟨k, rfl⟩ := hx
  obtain ⟨m, rfl⟩ := hy
  exact ⟨k + m, by push_cast; ring⟩

theorem isCents_sub {x y : ℚ} (hx : isCents x) (hy : isCents y) : isCents (x - y) := by
  obtain ⟨k, rfl⟩ := hx
  obtain ⟨m, rfl⟩ := hy
  exact ⟨k - m, by push_cast; ring⟩

theorem isCents_kobo (k : Nat) : isCents (koboToNaira k) := ⟨(k : ℤ), by rw [koboToNaira]; push_cast; ring⟩

/-- On whole-cent values, the source's Math.round(((x) + Number.EPSILON) * 100) / 100
is exact. -/
theorem round2_add_eps {x : ℚ} (h : isCents x) : round2 (x + EPSILON) = x := by
  obtain ⟨k, rfl⟩ := h
  rw [round2_eq]
  have harg : ((k : ℚ) / 100 + EPSILON) * 100 + 1 / 2 = (k : ℚ) + (100 / 2 ^ 52 + 1 / 2) := by
    rw [EPSILON]; ring
  rw [harg]
  have hfl : ⌊(k : ℚ) + (100 / 2 ^ 52 + 1 / 2)⌋ = k := by
    rw [Int.floor_eq_iff]
    constructor
    · have : (0 : ℚ) ≤ 100 / 2 ^ 52 + 1 / 2 := by norm_num
      linarith
    · have : (100 : ℚ) / 2 ^ 52 + 1 / 2 < 1 := by norm_num
      linarith
  rw [hfl]

/-! ### Ledger fold lemmas -/

theorem ledgerFold_append (l₁ l₂ : List LedgerEntry) :
    ledgerFold (l₁ ++ l₂) = ledgerFold l₁ + ledgerFold l₂ := by
  simp [ledgerFold]

theorem settleFeeSum_append (l₁ l₂ : List LedgerEntry) :
    settleFeeSum (l₁ ++ l₂) = settleFeeSum l₁ + settleFeeSum l₂ := by
  simp [settleFeeSum]

/-! ### Nonnegativity preservation -/

theorem nonneg_deposit (s : St) (pt : Option Txn) (v : Bool) (k : Nat) (ea : Option ℚ)
    (sc : DepositScenario) (h : NonNeg s) : NonNeg (depositVerifyRoute s pt v k ea sc).1 := by
  obtain ⟨h1, h2⟩ := h
  have hk : (0 : ℚ) ≤ koboToNaira k := by rw [koboToNaira]; positivity
  simp only [depositVerifyRoute, NonNeg]
  repeat' split
  all_goals refine ⟨?_, ?_⟩ <;> simp [creditWallet] <;> linarith

theorem nonneg_withdraw (s : St) (a : ℚ) (sc : WdScenario)
    (ha : 0 < a) (h : NonNeg s) : NonNeg (withdrawRoute s a sc).1 := by
  obtain ⟨h1, h2⟩ := h
  simp only [withdrawRoute, NonNeg]
  split
  · exact ⟨h1, h2⟩
  · rename_i hge
    push_neg at hge
    have hb1 : 0 ≤ round2 (s.wallet.balance - a + EPSILON) :=
      round2_nonneg (by linarith [eps_nonneg])
    have hp1 : 0 ≤ round2 (s.wallet.pending_balance + a + EPSILON) :=
      round2_nonneg (by linarith [eps_nonneg])
    split
    · exact ⟨h1, h2⟩
    · split
      · exact ⟨by simpa [applyHold] using hb1, by simpa [applyHold] using hp1⟩
      · split
        · split
          · exact ⟨by simpa [createWdRow, applyHold] using hb1,
                   by simpa [createWdRow, applyHold] using hp1⟩
          · constructor
            · simpa [applySettle, createWdRow, applyHold] using hb1
            · simp [applySettle]
        · split
          · exact ⟨by simpa [createWdRow, applyHold] using hb1,
                   by simpa [createWdRow, applyHold] using hp1⟩
          · constructor
            · simp only [applyRefund, createWdRow, applyHold]
              exact round2_nonneg (by linarith [eps_nonneg, hb1])
            · simp [applyRefund]

theorem nonneg_svcWithdraw (s s2 : St) (a : ℚ)
    (heq : serviceWithdrawFunds s a = .ok s2) (h : NonNeg s) : NonNeg s2 := by
  unfold serviceWithdrawFunds at heq
  split at heq
  · exact absurd heq (by simp)
  · rename_i hge
    push_neg at hge
    cases heq
    exact ⟨by simpa using by linarith [h.1], h.2⟩

theorem nonneg_transferOut (s s2 : St) (a : ℚ)
    (heq : serviceTransferOut s a = .ok s2) (h : NonNeg s) : NonNeg s2 := by
  unfold serviceTransferOut at heq
  split at heq
  · exact absurd heq (by simp)
  · rename_i hge
    push_neg at hge
    cases heq
    exact ⟨by simpa using by linarith [h.1], h.2⟩

theorem nonneg_transferIn (s : St) (a : ℚ) (ha : 0 ≤ a) (h : NonNeg s) :
    NonNeg (serviceTransferIn s a) := by
  exact ⟨by simpa [serviceTransferIn] using by linarith [h.1], by simpa [serviceTransferIn] using h.2⟩

/-- Every reachable state satisfies the balance invariant. -/
theorem reachable_nonneg (s : St) (h : Reachable s) : NonNeg s := by
  induction h with
  | init => exact ⟨le_refl 0, le_refl 0⟩
  | deposit s pt v k ea sc hr ih => exact nonneg_deposit s pt v k ea sc ih
  | withdraw s a sc ha hr ih => exact nonneg_withdraw s a sc ha ih
  | svcWithdraw s s2 a heq hr ih => exact nonneg_svcWithdraw s s2 a heq ih
  | transferOut s s2 a heq hr ih => exact nonneg_transferOut s s2 a heq ih
  | transferIn s a ha hr ih => exact nonneg_transferIn s a ha ih

/-! ### Claim C1 -/

/-- C1: for every sequence of deposit, withdrawal-hold, refund, settle, and
transfer operations, after every committed step the wallet's balance and
pendingBalance fields are both greater than or equal to zero; in particular, a
withdrawal hold is rejected with the insufficient-balance error when
balance < amount, so it never drives balance negative. -/
theorem no_negative_balances (s : St) (a : ℚ) (sc : WdScenario)
    (hs : Reachable s) (hlt : s.wallet.balance < a) :
    0 ≤ s.wallet.balance ∧ 0 ≤ s.wallet.pending_balance ∧
    withdrawRoute s a sc = (s, WdResult.insufficientBalance) := by
  obtain ⟨h1, h2⟩ := reachable_nonneg s hs
  refine ⟨h1, h2, ?_⟩
  simp [withdrawRoute, hlt]

/-- Concrete check of no_negative_balances on the fresh wallet and a hold of 5. -/
theorem no_negative_balances_witness :
    Reachable initSt ∧ initSt.wallet.balance < 5 ∧
      (0 ≤ initSt.wallet.balance ∧ 0 ≤ initSt.wallet.pending_balance ∧
        withdrawRoute initSt 5 (smoothScenario true none) = (initSt, WdResult.insufficientBalance)) :=
  ⟨Reachable.init, by norm_num [initSt],
    no_negative_balances initSt 5 (smoothScenario true none) Reachable.init (by norm_num [initSt])⟩

/-! ### Ledger replay invariant (towards C2) -/

theorem routeReachable_cents_fold (s : St) (h : RouteReachable s) :
    isCents s.wallet.balance ∧
    ledgerFold s.ledger = s.wallet.balance - settleFeeSum s.ledger := by
  induction h with
  | init => exact ⟨⟨0, by norm_num [initSt]⟩, by simp [initSt, ledgerFold, settleFeeSum]⟩
  | deposit s pt v k ea hr ih =>
    obtain ⟨hc, hf⟩ := ih
    simp only [depositVerifyRoute, allSavesOk]
    repeat' split
    all_goals refine ⟨?_, ?_⟩
    all_goals
      simp_all [creditWallet, ledgerFold_append, settleFeeSum_append, ledgerFold,
        settleFeeSum, entrySigned, settleFeeAmount]
    all_goals
      first
      | exact hc
      | exact isCents_add hc (isCents_kobo k)
      | linarith
  | withdraw s a ok msg ha hca hr ih =>
    obtain ⟨hc, hf⟩ := ih
    have hba : round2 (s.wallet.balance - a + EPSILON) = s.wallet.balance - a :=
      round2_add_eps (isCents_sub hc hca)
    have hrb : round2 (s.wallet.balance + EPSILON) = s.wallet.balance :=
      round2_add_eps hc
    simp only [ledgerFold, settleFeeSum] at hf
    by_cases hlt : s.wallet.balance < a
    · simpa [withdrawRoute, hlt] using ⟨hc, hf⟩
    · cases ok with
      | false =>
        simp [withdrawRoute, hlt, smoothScenario, applyHold, createWdRow, applyRefund,
          ledgerFold_append, settleFeeSum_append, ledgerFold, settleFeeSum, entrySigned,
          settleFeeAmount, hba, hrb]
        exact ⟨hc, by linarith⟩
      | true =>
        simp [withdrawRoute, hlt, smoothScenario, applyHold, createWdRow, applySettle,
          ledgerFold_append, settleFeeSum_append, ledgerFold, settleFeeSum, entrySigned,
          settleFeeAmount, hba]
        exact ⟨isCents_sub hc hca, by linarith⟩

theorem depositedSt_eq :
    depositedSt =
      { wallet := { balance := 1000, pending_balance := 0, total_deposited := 1000 }
        txs := [{ id := 0, amount := 1000, transaction_type := .deposit, status := .completed }]
        ledger := [{ entry_type := .credit, amount := 1000, balance_after := 1000, transaction_id := 0, context := .deposit }]
        wds := []
        nextId := 1 } := by
  norm_num [depositedSt, depositVerifyRoute, allSavesOk, expectedAmountMismatch,
    koboToNaira, creditWallet, initSt]

theorem settledSt_eq :
    settledSt =
      { wallet := { balance := 600, pending_balance := 0, total_deposited := 1000 }
        txs := [{ id := 0, amount := 1000, transaction_type := .deposit, status := .completed },
                { id := 1, amount := 400, transaction_type := .withdrawal, status := .completed },
                { id := 3, amount := 110, transaction_type := .withdrawal_fee, status := .completed }]
        ledger := [{ entry_type := .credit, amount := 1000, balance_after := 1000, transaction_id := 0, context := .deposit },
                   { entry_type := .debit, amount := 400, balance_after := 600, transaction_id := 1, context := .withdrawal_hold },
                   { entry_type := .debit, amount := 290, balance_after := 600, transaction_id := 1, context := .withdrawal_settle },
                   { entry_type := .debit, amount := 110, balance_after := 600, transaction_id := 3, context := .withdrawal_fee }]
        wds := [{ id := 2, amount := 400, fee := 110, net_amount := 290, status := .completed, transaction_id := 1, admin_notes := none }]
        nextId := 4 } := by
  rw [settledSt, depositedSt_eq]
  norm_num [withdrawRoute, smoothScenario, applyHold, createWdRow, applySettle,
    markTx, markWdCompleted, fee, percentFee, net, round2_eq, EPSILON]

/-! ### Claim C2 -/

/-- C2 counterexample: after a route deposit of 1000 and a settled withdrawal of
400, both reachable, the ledger folds to 1000 - 400 - 290 - 110 = 200 while the
wallet balance is 600: the settle-time entries debit the ledger without any
balance change, so replay does not reproduce the balance (pending is 0 here, so
pending holds cannot account for the gap). -/
theorem ledger_replay_counterexample :
    Reachable settledSt ∧ ledgerFold settledSt.ledger = 200 ∧
    settledSt.wallet.balance = 600 ∧ settledSt.wallet.pending_balance = 0 ∧
    ¬ ledgerFold settledSt.ledger = settledSt.wallet.balance := by
  refine ⟨Reachable.withdraw depositedSt 400 (smoothScenario true none) (by norm_num)
    (Reachable.deposit initSt none true 100000 none allSavesOk Reachable.init), ?_, ?_, ?_, ?_⟩
  · rw [settledSt_eq]; norm_num [ledgerFold, entrySigned]
  · rw [settledSt_eq]
  · rw [settledSt_eq]
  · rw [settledSt_eq]; norm_num [ledgerFold, entrySigned]

/-- C2 (amended): folding a wallet's ledger entries in creation order yields the
balance minus the total amount of the withdrawal_settle and withdrawal_fee
entries: deposit, hold and refund entries match the balance mutation recorded
with them exactly, but the two settle-time entries are appended with no balance
change, so replay reproduces the balance only until a withdrawal settles (and
service-level transfers append no ledger entries at all). -/
theorem ledger_replay_with_settle (s : St) (h : RouteReachable s) :
    ledgerFold s.ledger = s.wallet.balance - settleFeeSum s.ledger :=
  (routeReachable_cents_fold s h).2

/-- Concrete check of ledger_replay_with_settle on the settled-withdrawal state:
200 = 600 - (290 + 110). -/
theorem ledger_replay_with_settle_witness :
    ledgerFold settledSt.ledger = settledSt.wallet.balance - settleFeeSum settledSt.ledger :=
  ledger_replay_with_settle settledSt
    (RouteReachable.withdraw depositedSt 400 true none (by norm_num) ⟨40000, by norm_num⟩
      (RouteReachable.deposit initSt none true 100000 none RouteReachable.init))

/-! ### Claim C3 -/

/-- C3: for every withdrawal request of amount A that reaches the fee
computation, the Withdrawal row records fee = round2(A * 0.025) + 100 and
netAmount = max(0, round2(A - fee)); in particular fee 10000 = 350 with
netAmount 9650, and fee 50 = 101.25 with netAmount 0. -/
theorem withdrawal_fee_schedule (s : St) (a : ℚ) (sc : WdScenario)
    (hb : ¬ s.wallet.balance < a) (h1 : sc.stage1Fails = false) (h2 : sc.wdSaveFails = false) :
    ((withdrawRoute s a sc).1.wds.getLast?).map (fun w => (w.fee, w.net_amount)) =
      some (round2 (a * (25 / 1000)) + 100,
            max 0 (round2 (a - (round2 (a * (25 / 1000)) + 100)))) ∧
    fee 10000 = 350 ∧ net 10000 = 9650 ∧ fee 50 = 101.25 ∧ net 50 = 0 := by
  refine ⟨?_, by norm_num [fee, percentFee, net, round2_eq],
    by norm_num [fee, percentFee, net, round2_eq],
    by norm_num [fee, percentFee, net, round2_eq],
    by norm_num [fee, percentFee, net, round2_eq]⟩
  simp only [withdrawRoute, h1, h2]
  rw [if_neg hb]
  split_ifs <;>
    simp_all [createWdRow, applySettle, applyRefund, markWdFailed, markWdCompleted,
      List.getLast?_concat, fee, percentFee, net]

/-- Concrete check of withdrawal_fee_schedule for a withdrawal of 400 from a
balance of 1000 (fee 110, net 290). -/
theorem withdrawal_fee_schedule_witness :
    ¬ depositedSt.wallet.balance < 400 ∧
    (((withdrawRoute depositedSt 400 (smoothScenario true none)).1.wds.getLast?).map
        (fun w => (w.fee, w.net_amount)) =
      some (round2 ((400 : ℚ) * (25 / 1000)) + 100,
            max 0 (round2 (400 - (round2 ((400 : ℚ) * (25 / 1000)) + 100)))) ∧
     fee 10000 = 350 ∧ net 10000 = 9650 ∧ fee 50 = 101.25 ∧ net 50 = 0) :=
  ⟨by rw [depositedSt_eq]; norm_num,
   withdrawal_fee_schedule depositedSt 400 (smoothScenario true none)
     (by rw [depositedSt_eq]; norm_num) rfl rfl⟩

/-! ### Claim C4 -/

/-- C4 counterexample: from the reachable deposited state (balance 1000), a
withdrawal of 400 whose Withdrawal-row save fails leaves the stage-1 hold fully
committed (balance 600, pending 400, hold ledger entry) while no Withdrawal row
exists: one of the five claimed-atomic writes failed yet the others persist. -/
theorem stage1_atomicity_counterexample :
    Reachable depositedSt ∧
    (withdrawRoute depositedSt 400 wdSaveFailScenario).2 = WdResult.serverError ∧
    (withdrawRoute depositedSt 400 wdSaveFailScenario).1.wds = [] ∧
    (withdrawRoute depositedSt 400 wdSaveFailScenario).1.wallet.balance = 600 ∧
    (withdrawRoute depositedSt 400 wdSaveFailScenario).1.wallet.pending_balance = 400 ∧
    (withdrawRoute depositedSt 400 wdSaveFailScenario).1.ledger.getLast? =
      some { entry_type := .debit, amount := 400, balance_after := 600,
             transaction_id := 1, context := .withdrawal_hold } := by
  refine ⟨Reachable.deposit initSt none true 100000 none allSavesOk Reachable.init,
    ?_, ?_, ?_, ?_, ?_⟩ <;>
  · rw [depositedSt_eq]
    norm_num [withdrawRoute, wdSaveFailScenario, applyHold, round2_eq, EPSILON,
      List.getLast?_concat]

/-- C4 (amended): stage 1's wallet mutation, hold Transaction and
withdrawal_hold ledger entry form one atomic unit committed before the gateway
call: if the stage-1 transaction fails, nothing persists and the request
errors. The Withdrawal row, however, is written by a separate save after that
commit (still before the gateway call): when that save fails, the committed hold
remains while no Withdrawal row is created, whatever the gateway outcome would
have been. -/
theorem stage1_hold_atomic_wd_row_outside (s : St) (a : ℚ) (sc : WdScenario)
    (hb : ¬ s.wallet.balance < a) (hw : sc.wdSaveFails = true) :
    withdrawRoute s a sc =
      ((if sc.stage1Fails then s else applyHold s a), WdResult.serverError) ∧
    (applyHold s a).wds = s.wds := by
  constructor
  · simp only [withdrawRoute, hw]
    rw [if_neg hb]
    cases hst : sc.stage1Fails <;> simp [hst]
  · simp [applyHold]

/-- Concrete check of stage1_hold_atomic_wd_row_outside at balance 1000,
amount 400. -/
theorem stage1_hold_atomic_wd_row_outside_witness :
    ¬ depositedSt.wallet.balance < 400 ∧ wdSaveFailScenario.wdSaveFails = true ∧
    (withdrawRoute depositedSt 400 wdSaveFailScenario =
      ((if wdSaveFailScenario.stage1Fails then depositedSt else applyHold depositedSt 400),
        WdResult.serverError) ∧
     (applyHold depositedSt 400).wds = depositedSt.wds) :=
  ⟨by rw [depositedSt_eq]; norm_num, rfl,
   stage1_hold_atomic_wd_row_outside depositedSt 400 wdSaveFailScenario
     (by rw [depositedSt_eq]; norm_num) rfl⟩

/-! ### Claim C5 -/

/-- C5: for every withdrawal whose gateway transfer fails, the compensating
refund fully reverses the stage-1 hold: balance is increased by amount (back to
its original value), pendingBalance is decreased by amount (back to its
original value), the Withdrawal is appended/marked failed with the gateway
message (or its fallback) as admin notes, the hold Transaction is marked
failed, and a credit withdrawal_refund ledger entry is appended; the request
ends in the terminal gateway-failed response, never silently dropped. -/
theorem gateway_failure_refund (s : St) (a : ℚ) (msg : Option String)
    (hb : isCents s.wallet.balance) (hp : isCents s.wallet.pending_balance)
    (hca : isCents a) (ha : 0 < a) (hle : a ≤ s.wallet.balance)
    (hp0 : 0 ≤ s.wallet.pending_balance) :
    (withdrawRoute s a (smoothScenario false msg)).2 = WdResult.gatewayFailed ∧
    (withdrawRoute s a (smoothScenario false msg)).1.wallet.balance = s.wallet.balance ∧
    (withdrawRoute s a (smoothScenario false msg)).1.wallet.balance
      = (applyHold s a).wallet.balance + a ∧
    (withdrawRoute s a (smoothScenario false msg)).1.wallet.pending_balance
      = s.wallet.pending_balance ∧
    (withdrawRoute s a (smoothScenario false msg)).1.wallet.pending_balance
      = (applyHold s a).wallet.pending_balance - a ∧
    (withdrawRoute s a (smoothScenario false msg)).1.wds
      = markWdFailed s.wds (s.nextId + 1) (msg.getD "Transfer initiation failed")
        ++ [{ id := s.nextId + 1, amount := a, fee := fee a, net_amount := net a,
              status := .failed, transaction_id := s.nextId,
              admin_notes := some (msg.getD "Transfer initiation failed") }] ∧
    (withdrawRoute s a (smoothScenario false msg)).1.txs
      = markTx s.txs s.nextId .failed
        ++ [{ id := s.nextId, amount := a, transaction_type := .withdrawal,
              status := .failed }] ∧
    (withdrawRoute s a (smoothScenario false msg)).1.ledger
      = s.ledger
        ++ [{ entry_type := .debit, amount := a, balance_after := s.wallet.balance - a,
              transaction_id := s.nextId, context := .withdrawal_hold },
            { entry_type := .credit, amount := a, balance_after := s.wallet.balance,
              transaction_id := s.nextId, context := .withdrawal_refund }] := by
  have hlt : ¬ s.wallet.balance < a := not_lt.mpr hle
  have h1 : round2 (s.wallet.balance - a + EPSILON) = s.wallet.balance - a :=
    round2_add_eps (isCents_sub hb hca)
  have h2 : round2 (s.wallet.pending_balance + a + EPSILON) = s.wallet.pending_balance + a :=
    round2_add_eps (isCents_add hp hca)
  have h3 : round2 (s.wallet.balance + EPSILON) = s.wallet.balance := round2_add_eps hb
  have h4 : round2 (s.wallet.pending_balance + EPSILON) = s.wallet.pending_balance :=
    round2_add_eps hp
  simp [withdrawRoute, smoothScenario, hlt, applyHold, createWdRow, applyRefund,
    markWdFailed, markTx, h1, h2, h3, h4, max_eq_right hp0]

/-- Concrete check of gateway_failure_refund: balance 1000, withdrawal 400,
gateway message "transfer declined". -/
theorem gateway_failure_refund_witness :
    isCents richSt.wallet.balance ∧ isCents richSt.wallet.pending_balance ∧
    isCents (400 : ℚ) ∧ (0 : ℚ) < 400 ∧ (400 : ℚ) ≤ richSt.wallet.balance ∧
    (0 : ℚ) ≤ richSt.wallet.pending_balance ∧
    ((withdrawRoute richSt 400 (smoothScenario false (some "transfer declined"))).2
        = WdResult.gatewayFailed ∧
     (withdrawRoute richSt 400 (smoothScenario false (some "transfer declined"))).1.wallet.balance
        = richSt.wallet.balance ∧
     (withdrawRoute richSt 400 (smoothScenario false (some "transfer declined"))).1.wallet.balance
        = (applyHold richSt 400).wallet.balance + 400 ∧
     (withdrawRoute richSt 400 (smoothScenario false (some "transfer declined"))).1.wallet.pending_balance
        = richSt.wallet.pending_balance ∧
     (withdrawRoute richSt 400 (smoothScenario false (some "transfer declined"))).1.wallet.pending_balance
        = (applyHold richSt 400).wallet.pending_balance - 400 ∧
     (withdrawRoute richSt 400 (smoothScenario false (some "transfer declined"))).1.wds
        = markWdFailed richSt.wds (richSt.nextId + 1) ((some "transfer declined").getD "Transfer initiation failed")
          ++ [{ id := richSt.nextId + 1, amount := 400, fee := fee 400, net_amount := net 400,
                status := .failed, transaction_id := richSt.nextId,
                admin_notes := some ((some "transfer declined").getD "Transfer initiation failed") }] ∧
     (withdrawRoute richSt 400 (smoothScenario false (some "transfer declined"))).1.txs
        = markTx richSt.txs richSt.nextId .failed
          ++ [{ id := richSt.nextId, amount := 400, transaction_type := .withdrawal,
                status := .failed }] ∧
     (withdrawRoute richSt 400 (smoothScenario false (some "transfer declined"))).1.ledger
        = richSt.ledger
          ++ [{ entry_type := .debit, amount := 400, balance_after := richSt.wallet.balance - 400,
                transaction_id := richSt.nextId, context := .withdrawal_hold },
              { entry_type := .credit, amount := 400, balance_after := richSt.wallet.balance,
                transaction_id := richSt.nextId, context := .withdrawal_refund }]) :=
  ⟨⟨100000, by norm_num [richSt]⟩, ⟨0, by norm_num [richSt]⟩, ⟨40000, by norm_num⟩,
   by norm_num, by norm_num [richSt], by norm_num [richSt],
   gateway_failure_refund richSt 400 (some "transfer declined")
     ⟨100000, by norm_num [richSt]⟩ ⟨0, by norm_num [richSt]⟩ ⟨40000, by norm_num⟩
     (by norm_num) (by norm_num [richSt]) (by norm_num [richSt])⟩

/-! ### Claim C6 -/

/-- C6: for every withdrawal whose gateway transfer succeeds, the settle step
decreases pendingBalance by amount (back to its pre-hold value) while leaving
the balance field unchanged from its stage-1 value s.balance - amount (the
funds are not returned), and the two ledger entries appended at settle (debit
withdrawal_settle for net and debit withdrawal_fee for fee) both record that
unchanged balance as balanceAfter. -/
theorem gateway_success_settle (s : St) (a : ℚ) (msg : Option String)
    (hb : isCents s.wallet.balance) (hp : isCents s.wallet.pending_balance)
    (hca : isCents a) (hle : a ≤ s.wallet.balance)
    (hp0 : 0 ≤ s.wallet.pending_balance) :
    (withdrawRoute s a (smoothScenario true msg)).2 = WdResult.created ∧
    (withdrawRoute s a (smoothScenario true msg)).1.wallet.pending_balance
      = s.wallet.pending_balance ∧
    (withdrawRoute s a (smoothScenario true msg)).1.wallet.pending_balance
      = (applyHold s a).wallet.pending_balance - a ∧
    (withdrawRoute s a (smoothScenario true msg)).1.wallet.balance
      = (applyHold s a).wallet.balance ∧
    (withdrawRoute s a (smoothScenario true msg)).1.wallet.balance
      = s.wallet.balance - a ∧
    (withdrawRoute s a (smoothScenario true msg)).1.ledger
      = s.ledger
        ++ [{ entry_type := .debit, amount := a, balance_after := s.wallet.balance - a,
              transaction_id := s.nextId, context := .withdrawal_hold },
            { entry_type := .debit, amount := net a, balance_after := s.wallet.balance - a,
              transaction_id := s.nextId, context := .withdrawal_settle },
            { entry_type := .debit, amount := fee a, balance_after := s.wallet.balance - a,
              transaction_id := s.nextId + 2, context := .withdrawal_fee }] ∧
    (withdrawRoute s a (smoothScenario true msg)).1.wds
      = markWdCompleted s.wds (s.nextId + 1)
        ++ [{ id := s.nextId + 1, amount := a, fee := fee a, net_amount := net a,
              status := .completed, transaction_id := s.nextId, admin_notes := none }] ∧
    (withdrawRoute s a (smoothScenario true msg)).1.txs
      = markTx s.txs s.nextId .completed
        ++ [{ id := s.nextId, amount := a, transaction_type := .withdrawal,
              status := .completed },
            { id := s.nextId + 2, amount := fee a, transaction_type := .withdrawal_fee,
              status := .completed }] := by
  have hlt : ¬ s.wallet.balance < a := not_lt.mpr hle
  have h1 : round2 (s.wallet.balance - a + EPSILON) = s.wallet.balance - a :=
    round2_add_eps (isCents_sub hb hca)
  have h2 : round2 (s.wallet.pending_balance + a + EPSILON) = s.wallet.pending_balance + a :=
    round2_add_eps (isCents_add hp hca)
  have h4 : round2 (s.wallet.pending_balance + EPSILON) = s.wallet.pending_balance :=
    round2_add_eps hp
  simp [withdrawRoute, smoothScenario, hlt, applyHold, createWdRow, applySettle,
    markWdCompleted, markTx, h1, h2, h4, max_eq_right hp0]

/-- Concrete check of gateway_success_settle: balance 1000, withdrawal 400,
ending with balance 600, pending 0 and settle/fee entries recording 600. -/
theorem gateway_success_settle_witness :
    isCents richSt.wallet.balance ∧ isCents richSt.wallet.pending_balance ∧
    isCents (400 : ℚ) ∧ (400 : ℚ) ≤ richSt.wallet.balance ∧
    (0 : ℚ) ≤ richSt.wallet.pending_balance ∧
    ((withdrawRoute richSt 400 (smoothScenario true none)).2 = WdResult.created ∧
     (withdrawRoute richSt 400 (smoothScenario true none)).1.wallet.pending_balance
        = richSt.wallet.pending_balance ∧
     (withdrawRoute richSt 400 (smoothScenario true none)).1.wallet.pending_balance
        = (applyHold richSt 400).wallet.pending_balance - 400 ∧
     (withdrawRoute richSt 400 (smoothScenario true none)).1.wallet.balance
        = (applyHold richSt 400).wallet.balance ∧
     (withdrawRoute richSt 400 (smoothScenario true none)).1.wallet.balance
        = richSt.wallet.balance - 400 ∧
     (withdrawRoute richSt 400 (smoothScenario true none)).1.ledger
        = richSt.ledger
          ++ [{ entry_type := .debit, amount := 400, balance_after := richSt.wallet.balance - 400,
                transaction_id := richSt.nextId, context := .withdrawal_hold },
              { entry_type := .debit, amount := net 400, balance_after := richSt.wallet.balance - 400,
                transaction_id := richSt.nextId, context := .withdrawal_settle },
              { entry_type := .debit, amount := fee 400, balance_after := richSt.wallet.balance - 400,
                transaction_id := richSt.nextId + 2, context := .withdrawal_fee }] ∧
     (withdrawRoute richSt 400 (smoothScenario true none)).1.wds
        = markWdCompleted richSt.wds (richSt.nextId + 1)
          ++ [{ id := richSt.nextId + 1, amount := 400, fee := fee 400, net_amount := net 400,
                status := .completed, transaction_id := richSt.nextId, admin_notes := none }] ∧
     (withdrawRoute richSt 400 (smoothScenario true none)).1.txs
        = markTx richSt.txs richSt.nextId .completed
          ++ [{ id := richSt.nextId, amount := 400, transaction_type := .withdrawal,
                status := .completed },
              { id := richSt.nextId + 2, amount := fee 400, transaction_type := .withdrawal_fee,
                status := .completed }]) :=
  ⟨⟨100000, by norm_num [richSt]⟩, ⟨0, by norm_num [richSt]⟩, ⟨40000, by norm_num⟩,
   by norm_num [richSt], by norm_num [richSt],
   gateway_success_settle richSt 400 none
     ⟨100000, by norm_num [richSt]⟩ ⟨0, by norm_num [richSt]⟩ ⟨40000, by norm_num⟩
     (by norm_num [richSt]) (by norm_num [richSt])⟩

/-! ### Claim C7 -/

/-- C7 counterexample: verifying a deposit of 50000 kobo on a fresh wallet with
the transaction save failing leaves the wallet credited with 500 while no
transaction and no ledger entry were written: the three writes do not form one
atomic unit. -/
theorem deposit_atomicity_counterexample :
    (depositVerifyRoute initSt none true 50000 none txSaveFailScenario).2
      = DepositResult.serverError ∧
    (depositVerifyRoute initSt none true 50000 none txSaveFailScenario).1.wallet.balance = 500 ∧
    (depositVerifyRoute initSt none true 50000 none txSaveFailScenario).1.txs = [] ∧
    (depositVerifyRoute initSt none true 50000 none txSaveFailScenario).1.ledger = [] := by
  norm_num [depositVerifyRoute, txSaveFailScenario, expectedAmountMismatch, koboToNaira,
    creditWallet, initSt]

/-- C7 (amended): the three deposit-credit writes are issued sequentially with
no shared database transaction, wallet save first, then the Transaction write,
then the ledger entry. When the route reports success, all three have landed
together; a failure part-way persists only the earlier writes, so the wallet
credit can persist without the transaction or ledger writes (as the
counterexample shows), while a credit ledger entry is never written without the
wallet credit. -/
theorem deposit_credit_writes (s : St) (pt : Option Txn) (v : Bool) (k : Nat)
    (ea : Option ℚ) (sc : DepositScenario)
    (h : (depositVerifyRoute s pt v k ea sc).2 = DepositResult.credited) :
    (depositVerifyRoute s pt v k ea sc).1.wallet.balance = s.wallet.balance + koboToNaira k ∧
    (depositVerifyRoute s pt v k ea sc).1.wallet.total_deposited
      = s.wallet.total_deposited + koboToNaira k ∧
    (depositVerifyRoute s pt v k ea sc).1.ledger.map
        (fun e => (e.entry_type, e.amount, e.balance_after, e.context))
      = s.ledger.map (fun e => (e.entry_type, e.amount, e.balance_after, e.context))
        ++ [(EntryType.credit, koboToNaira k, s.wallet.balance + koboToNaira k,
             LedgerContext.deposit)] ∧
    sc.walletSaveFails = false ∧ sc.txSaveFails = false ∧ sc.ledgerSaveFails = false := by
  simp only [depositVerifyRoute] at h ⊢
  repeat' split at h
  all_goals try simp_all [creditWallet]

/-- Concrete check of deposit_credit_writes: 50000 kobo verified on a fresh
wallet with every save succeeding. -/
theorem deposit_credit_writes_witness :
    (depositVerifyRoute initSt none true 50000 none allSavesOk).2 = DepositResult.credited ∧
    ((depositVerifyRoute initSt none true 50000 none allSavesOk).1.wallet.balance
        = initSt.wallet.balance + koboToNaira 50000 ∧
     (depositVerifyRoute initSt none true 50000 none allSavesOk).1.wallet.total_deposited
        = initSt.wallet.total_deposited + koboToNaira 50000 ∧
     (depositVerifyRoute initSt none true 50000 none allSavesOk).1.ledger.map
         (fun e => (e.entry_type, e.amount, e.balance_after, e.context))
        = initSt.ledger.map (fun e => (e.entry_type, e.amount, e.balance_after, e.context))
          ++ [(EntryType.credit, koboToNaira 50000,
               initSt.wallet.balance + koboToNaira 50000, LedgerContext.deposit)] ∧
     allSavesOk.walletSaveFails = false ∧ allSavesOk.txSaveFails = false ∧
     allSavesOk.ledgerSaveFails = false) :=
  ⟨by norm_num [depositVerifyRoute, allSavesOk, expectedAmountMismatch, koboToNaira,
      creditWallet, initSt],
   deposit_credit_writes initSt none true 50000 none allSavesOk
     (by norm_num [depositVerifyRoute, allSavesOk, expectedAmountMismatch, koboToNaira,
       creditWallet, initSt])⟩

/-! ### Claim C8 -/

/-- C8 counterexample: after the first refund the withdrawal is failed (no
longer processing) and the balance is back to 1000; executing the stage-2A
block a second time for the same withdrawal raises the balance to 1400: the
second refund does not leave the balance unchanged, and nothing limits the
processing-to-failed transition to one execution. -/
theorem refund_idempotence_counterexample :
    refundedOnceSt.wds.map WithdrawalRow.status = [WdStatus.failed] ∧
    refundedOnceSt.wallet.balance = 1000 ∧
    refundedTwiceSt.wallet.balance = 1400 ∧
    ¬ refundedTwiceSt.wallet.balance = refundedOnceSt.wallet.balance := by
  refine ⟨?_, ?_, ?_, ?_⟩ <;>
    norm_num [refundedOnceSt, refundedTwiceSt, heldSt, applyRefund, applyHold, createWdRow,
      markWdFailed, markTx, richSt, round2_eq, EPSILON, fee, percentFee, net]

/-- C8 (amended): the stage-2A refund block carries no processing-status guard:
each execution unconditionally credits the wallet balance by amount (and
re-marks the withdrawal failed), so re-running it for the same withdrawal
double-credits the balance by 2 * amount; within a single request the block
runs at most once only because it is straight-line code in the handler. -/
theorem refund_not_guarded (s : St) (wdId txId : Nat) (a : ℚ) (msg : Option String)
    (hb : isCents s.wallet.balance) (hca : isCents a) :
    (applyRefund s wdId txId a msg).wallet.balance = s.wallet.balance + a ∧
    (applyRefund (applyRefund s wdId txId a msg) wdId txId a msg).wallet.balance
      = s.wallet.balance + 2 * a := by
  have h1 : round2 (s.wallet.balance + a + EPSILON) = s.wallet.balance + a :=
    round2_add_eps (isCents_add hb hca)
  have h2 : round2 (s.wallet.balance + a + a + EPSILON) = s.wallet.balance + a + a :=
    round2_add_eps (isCents_add (isCents_add hb hca) hca)
  refine ⟨by simp [applyRefund, h1], ?_⟩
  simp only [applyRefund]
  simp [h1, h2]
  ring

/-- Concrete check of refund_not_guarded on the held state (balance 600):
one refund gives 1000, the rerun gives 1400. -/
theorem refund_not_guarded_witness :
    isCents heldSt.wallet.balance ∧ isCents (400 : ℚ) ∧
    ((applyRefund heldSt 1 0 400 (some "transfer failed")).wallet.balance
        = heldSt.wallet.balance + 400 ∧
     (applyRefund (applyRefund heldSt 1 0 400 (some "transfer failed")) 1 0 400
        (some "transfer failed")).wallet.balance = heldSt.wallet.balance + 2 * 400) :=
  ⟨⟨60000, by norm_num [heldSt, createWdRow, applyHold, richSt, round2_eq, EPSILON]⟩,
   ⟨40000, by norm_num⟩,
   refund_not_guarded heldSt 1 0 400 (some "transfer failed")
     ⟨60000, by norm_num [heldSt, createWdRow, applyHold, richSt, round2_eq, EPSILON]⟩
     ⟨40000, by norm_num⟩⟩

/-! ### Claim C9 -/

/-- C9 counterexample: a request carrying both a saved bank_account_id and the
complete inline bank details does not fail with the validation error, although
the two input shapes are not exactly-one: the saved account silently takes
precedence over the inline details. -/
theorem bank_details_exactly_one_counterexample :
    resolveBankAccount savedAccounts 7 (some 1)
        (some "Zenith") (some "057") (some "5550001111") (some "Someone Else")
      = Except.ok { name := "Ada Obi", number := "0123456789", bankName := "GTB",
                    bankCode := "058" } ∧
    ¬ resolveBankAccount savedAccounts 7 (some 1)
        (some "Zenith") (some "057") (some "5550001111") (some "Someone Else")
      = Except.error BankResolveErr.validationFailed := by
  constructor <;> norm_num [resolveBankAccount, savedAccounts, List.find?] <;>
    exact fun h => Except.noConfusion h

/-- C9 (amended): a supplied bankAccountId takes precedence, the inline details
then being ignored; when it is supplied the lookup is scoped to the requesting
user and its failure is exactly the not-found error; the validation error
occurs exactly when no bankAccountId is supplied and the four inline fields are
not all present. -/
theorem bank_details_resolution (accounts : List BankAccount) (uid i : Nat)
    (bn bc an nm : Option String) :
    resolveBankAccount accounts uid (some i) bn bc an nm
      = resolveBankAccount accounts uid (some i) none none none none ∧
    (resolveBankAccount accounts uid (some i) bn bc an nm
        = Except.error BankResolveErr.notFound
      ↔ accounts.find? (fun acc => acc.id == i && acc.user_id == uid) = none) ∧
    (resolveBankAccount accounts uid none bn bc an nm
        = Except.error BankResolveErr.validationFailed
      ↔ (bn.isNone ∨ bc.isNone ∨ an.isNone ∨ nm.isNone)) := by
  refine ⟨rfl, ?_, ?_⟩
  · rcases hfind : accounts.find? (fun acc => acc.id == i && acc.user_id == uid) with _ | acc <;>
      simp [resolveBankAccount, hfind]
  · cases bn <;> cases bc <;> cases an <;> cases nm <;> simp [resolveBankAccount]

/-! ### Claim C10 -/

/-- C10: in deposit verification an expectedAmount of 0 is treated as absent:
whatever the gateway-reported amount, the pending-transaction lookup result and
the write outcomes, the request never fails with the amount-mismatch error,
because the minor-unit comparison only runs when expectedAmount is truthy. -/
theorem expected_amount_zero_never_mismatch (s : St) (pt : Option Txn) (v : Bool)
    (k : Nat) (sc : DepositScenario) :
    (depositVerifyRoute s pt v k (some 0) sc).2 ≠ DepositResult.amountMismatch := by
  have hm : expectedAmountMismatch (some 0) (koboToNaira k) = false := by
    simp [expectedAmountMismatch]
  simp only [depositVerifyRoute, hm]
  repeat' split
  all_goals simp_all

end ContestsWallet
